import Mathlib

/-!
Verification of the BI-Project energy ETL pipeline and REST API layer.

The definitions below are a shallow embedding of:
  * `clean_and_transform_data` and `load_to_postgres` in
    `src/dags/energy_etl_dag.py` (pandas frames become lists of records,
    `str.replace` becomes left-to-right non-overlapping rewriting on
    `List Char`, `pd.to_numeric(errors='coerce')` becomes an
    `Option`-valued parse, `drop_duplicates` becomes first-occurrence
    deduplication, NaN cells become `none`);
  * the Django viewsets in `src/backend/api/views.py` (query-parameter
    filter chains and the `summary` aggregates) together with the field
    names declared on the models in `src/backend/api/models.py`.

Numeric year cells are modelled as integers and float measures as
rationals; float rounding plays no role in any property considered here.
-/

namespace BIProject

/-! ### Generic string helpers (Python `in`, `str.replace`, `str.strip`) -/

/-- `startsWithChars p l` is true iff `p` is a prefix of `l`
(character-list version of Python's startswith, used to express
substring containment). -/
def startsWithChars : List Char → List Char → Bool
  | [], _ => true
  | _ :: _, [] => false
  | p :: ps, c :: cs => p == c && startsWithChars ps cs

/-- `hasSubChars pat l` is true iff `pat` occurs as a contiguous
subsequence of `l` — Python's `pat in l`. -/
def hasSubChars (pat : List Char) : List Char → Bool
  | [] => startsWithChars pat []
  | c :: cs => startsWithChars pat (c :: cs) || hasSubChars pat cs

/-- Python's substring test `pat in s`. -/
def strHasSub (s pat : String) : Bool :=
  hasSubChars pat.toList s.toList

/-- Python `s.replace(p, rep)` for a single-character pattern `p`:
every occurrence of `p` is replaced by `rep`. -/
def replaceChar (p : Char) (rep : List Char) : List Char → List Char
  | [] => []
  | c :: cs => if c == p then rep ++ replaceChar p rep cs else c :: replaceChar p rep cs

/-- Python `s.replace(' - ', '_')`: left-to-right, non-overlapping. -/
def replaceSpDashSp : List Char → List Char
  | [] => []
  | [c] => [c]
  | [c, d] => [c, d]
  | c :: d :: e :: rest =>
    if c == ' ' && d == '-' && e == ' ' then '_' :: replaceSpDashSp rest
    else c :: replaceSpDashSp (d :: e :: rest)

/-- Python `s.replace('__', '_')`: ONE left-to-right non-overlapping
pass (so `___` becomes `__`, not `_`). -/
def collapseUnd : List Char → List Char
  | [] => []
  | [c] => [c]
  | c :: d :: rest =>
    if c == '_' && d == '_' then '_' :: collapseUnd rest
    else c :: collapseUnd (d :: rest)

/-- Python `s.strip('_')`: drop leading and trailing underscores. -/
def stripUnd (l : List Char) : List Char :=
  ((l.dropWhile (· == '_')).reverse.dropWhile (· == '_')).reverse

/-- The column-name standardization of `clean_and_transform_data`
(energy_etl_dag.py lines 116-126): lower-case, `'₂' → '2'`, delete
parentheses, then `' - '`, `' '`, `'-'` to `'_'`, one `'__' → '_'`
pass, and strip outer underscores. -/
def normalizeCol (s : String) : String :=
  String.mk (stripUnd (collapseUnd (replaceChar '-' ['_'] (replaceChar ' ' ['_']
    (replaceSpDashSp (replaceChar ')' [] (replaceChar '(' []
      (replaceChar '₂' ['2'] (s.toList.map Char.toLower)))))))))

/-! ### Entity classification (energy_etl_dag.py lines 146-150) -/

/-- The fixed aggregate-region labels of the DAG. -/
def AGGREGATES : List String :=
  ["World", "Africa", "Asia", "Europe", "OECD", "EU", "ASEAN"]

/-- `'aggregate' if any(agg in str(x) for agg in aggregates) else 'country'`. -/
def entityType (e : String) : String :=
  if AGGREGATES.any (fun a => strHasSub e a) then "aggregate" else "country"

/-! ### Row model for the clean/transform stage.

All four datasets share the shape entity / code / year / measure(s);
one measure column (`Option ℚ`, `none` is NaN) stands for the
dataset-specific measures.  The raw `year` cell is a string, as read
from a CSV column that `pd.to_numeric(errors='coerce')` must still
coerce. -/

structure RawRow where
  entity : String
  code : String
  year : String
  value : Option ℚ
deriving DecidableEq, Repr

/-- Row after `df['code'] = df['code'].replace('', np.nan)` (line 130). -/
structure MidRow where
  entity : String
  code : Option String
  year : String
  value : Option ℚ
deriving DecidableEq, Repr

/-- Row after year coercion and range filtering (lines 136-138). -/
structure NumRow where
  entity : String
  code : Option String
  year : Int
  value : Option ℚ
deriving DecidableEq, Repr

/-- Fully cleaned row, with the provenance columns of lines 141-143 and
the `entity_type` column of lines 146-150. -/
structure CleanRow where
  entity : String
  code : Option String
  year : Int
  value : Option ℚ
  data_source : String
  data_quality_flag : String
  last_updated : Nat
  entity_type : String
deriving DecidableEq, Repr

/-- Line 130: empty-string codes become missing (`NaN`). -/
def replaceEmptyCode (r : RawRow) : MidRow :=
  { entity := r.entity
    code := if r.code = "" then none else some r.code
    year := r.year
    value := r.value }

/-- First-occurrence deduplication, the behaviour of pandas
`drop_duplicates()` (line 133); `seen` accumulates rows already kept. -/
def dedupAux {α : Type} [DecidableEq α] (seen : List α) : List α → List α
  | [] => []
  | x :: xs => if x ∈ seen then dedupAux seen xs else x :: dedupAux (x :: seen) xs

/-- `df.drop_duplicates()`. -/
def dedupKeepFirst {α : Type} [DecidableEq α] (l : List α) : List α :=
  dedupAux [] l

/-- Decimal digit value of a character, `none` for non-digits. -/
def digitVal (c : Char) : Option Nat :=
  if c.isDigit then some (c.toNat - '0'.toNat) else none

/-- Parse a non-empty all-digit character list as a natural number. -/
def parseNatChars (l : List Char) : Option Nat :=
  if l.isEmpty then none
  else l.foldl (fun acc c =>
    match acc, digitVal c with
    | some n, some d => some (n * 10 + d)
    | _, _ => none) (some 0)

/-- Parse an optionally signed integer numeral. -/
def parseIntChars : List Char → Option Int
  | '-' :: rest => (parseNatChars rest).map (fun n => -(n : Int))
  | '+' :: rest => (parseNatChars rest).map (fun n => (n : Int))
  | l => (parseNatChars l).map (fun n => (n : Int))

/-- Strip leading and trailing whitespace. -/
def trimChars (l : List Char) : List Char :=
  ((l.dropWhile (·.isWhitespace)).reverse.dropWhile (·.isWhitespace)).reverse

/-- Numeric coercion of one string cell, the integer fragment shared by
`pd.to_numeric(errors='coerce')` (NaN on failure) and Python's `int()`:
surrounding whitespace is tolerated, anything unparseable is `none`. -/
def parseIntStr (s : String) : Option Int :=
  parseIntChars (trimChars s.toList)

/-- `pd.to_numeric(df['year'], errors='coerce')` on one cell, with year
numerals modelled as integers. -/
def coerceYear (s : String) : Option Int :=
  parseIntStr s

/-- Lines 136-138: coerce the year and keep the row iff
`1750 <= year <= 2025`. -/
def coerceFilterYear (r : MidRow) : Option NumRow :=
  (coerceYear r.year).bind (fun y =>
    if 1750 ≤ y && y ≤ 2025 then some ⟨r.entity, r.code, y, r.value⟩ else none)

/-- Lines 141-150: append the constant provenance columns and the
derived `entity_type` column. -/
def addMeta (source : String) (today : Nat) (r : NumRow) : CleanRow :=
  { entity := r.entity
    code := r.code
    year := r.year
    value := r.value
    data_source := source
    data_quality_flag := "clean"
    last_updated := today
    entity_type := entityType r.entity }

/-- The row-level pipeline of `clean_and_transform_data` for one
dataset whose columns include `code`, `year` and `entity`:
empty-code replacement, then duplicate removal, then year
coercion/filtering, then the appended metadata columns — in exactly
the order of energy_etl_dag.py lines 128-150. -/
def cleanTransform (source : String) (today : Nat) (rows : List RawRow) : List CleanRow :=
  ((dedupKeepFirst (rows.map replaceEmptyCode)).filterMap coerceFilterYear).map
    (addMeta source today)

/-! ### Database load stage (energy_etl_dag.py lines 208-209) -/

/-- `df.insert(0, 'id', range(1, len(df) + 1))`: pair each cleaned row
with a surrogate key, ids running 1, 2, ..., n. -/
def assignIds {α : Type} (rows : List α) : List (Nat × α) :=
  ((List.range rows.length).map (· + 1)).zip rows

/-! ### Django models and summary endpoints (src/backend/api) -/

/-- Field names declared on `CleanedElectricityProduction`
(models.py lines 35-92); Django ORM lookups such as `Avg('f')`
resolve against these attribute names. -/
def electricityModelFields : List String :=
  ["id", "entity", "code", "year",
   "other_renewables_excluding_bioenergy", "electricity_from_bioenergy",
   "electricity_from_solar", "electricity_from_wind",
   "electricity_from_hydro", "electricity_from_nuclear",
   "electricity_from_oil", "electricity_from_gas", "electricity_from_coal",
   "data_source", "data_quality_flag", "last_updated", "entity_type"]

/-- Field names declared on `CleanedEnergyProdCons`
(models.py lines 105-127). -/
def energyProdConsModelFields : List String :=
  ["id", "entity", "code", "year",
   "consumption_based_energy", "production_based_energy",
   "data_source", "data_quality_flag", "last_updated", "entity_type"]

/-- The field names that `ElectricityProductionViewSet.summary`
aggregates over (views.py lines 134-142), other than `id`. -/
def electricitySummaryAggFields : List String :=
  ["electricity_from_fossil_fuels_twh",
   "electricity_from_nuclear_twh",
   "electricity_from_renewables_twh"]

/-- The field names that `EnergyProdConsViewSet.summary` aggregates
over (views.py lines 195-200), other than `id`. -/
def energyProdConsSummaryAggFields : List String :=
  ["primary_energy_consumption_twh"]

/-- A stored row of `cleaned_co2_emissions` as declared by the
`CleanedCo2Emissions` model; `none` is SQL NULL.  The filter chain is
identical across the four viewsets, so this row type stands for all
four collection endpoints. -/
structure DbRow where
  id : Nat
  entity : String
  code : Option String
  year : Int
  annual_co2_emissions : Option ℚ
  data_source : String
  data_quality_flag : String
  last_updated : Nat
  entity_type : String
deriving DecidableEq, Repr

/-- The set of query parameters of one request; `none` means the
parameter was not supplied, `some ""` that it was supplied empty. -/
structure Query where
  entity : Option String
  code : Option String
  year : Option String
  entity_type : Option String
  year_min : Option String
  year_max : Option String
deriving DecidableEq, Repr

/-- Python truthiness of `request.query_params.get(p, None)`:
`None` and the empty string are falsy. -/
def truthy : Option String → Bool
  | none => false
  | some s => !(s == "")

/-- Django `entity__icontains`: case-insensitive substring match
(both sides lower-cased, then containment). -/
def icontains (hay pat : String) : Bool :=
  hasSubChars (pat.toList.map Char.toLower) (hay.toList.map Char.toLower)

/-- Django `year=v` with a string parameter against an IntegerField:
the parameter is coerced to an integer and compared; an unparseable
value matches nothing. -/
def intEqParam (y : Int) (s : String) : Bool :=
  match parseIntStr s with
  | some n => y == n
  | none => false

/-- Django `year__gte=v`. -/
def intGeParam (y : Int) (s : String) : Bool :=
  match parseIntStr s with
  | some n => n ≤ y
  | none => false

/-- Django `year__lte=v`. -/
def intLeParam (y : Int) (s : String) : Bool :=
  match parseIntStr s with
  | some n => y ≤ n
  | none => false

/-- The `get_queryset` filter chain shared by all four viewsets
(views.py lines 43-67 and the three identical copies): each parameter
is applied only when truthy, in the order entity, code, year,
entity_type, year_min, year_max. -/
def applyFilters (q : Query) (rows : List DbRow) : List DbRow :=
  let r1 := if truthy q.entity = true then
      rows.filter (fun r => icontains r.entity (q.entity.getD "")) else rows
  let r2 := if truthy q.code = true then
      r1.filter (fun r => r.code == some (q.code.getD "")) else r1
  let r3 := if truthy q.year = true then
      r2.filter (fun r => intEqParam r.year (q.year.getD "")) else r2
  let r4 := if truthy q.entity_type = true then
      r3.filter (fun r => r.entity_type == q.entity_type.getD "") else r3
  let r5 := if truthy q.year_min = true then
      r4.filter (fun r => intGeParam r.year (q.year_min.getD "")) else r4
  let r6 := if truthy q.year_max = true then
      r5.filter (fun r => intLeParam r.year (q.year_max.getD "")) else r5
  r6

/-- SQL `SUM` fold. -/
def listSum (l : List ℚ) : ℚ := l.foldr (· + ·) 0

/-- SQL `AVG`: `NULL` (`none`) on an empty collection. -/
def listAvg (l : List ℚ) : Option ℚ :=
  if l.isEmpty then none else some (listSum l / l.length)

/-- SQL `MAX`: `NULL` on an empty collection. -/
def listMaxOpt {α : Type} [Max α] (l : List α) : Option α :=
  l.foldr (fun x acc => match acc with | none => some x | some m => some (max x m)) none

/-- SQL `MIN`: `NULL` on an empty collection. -/
def listMinOpt {α : Type} [Min α] (l : List α) : Option α :=
  l.foldr (fun x acc => match acc with | none => some x | some m => some (min x m)) none

/-- The response body of `Co2EmissionsViewSet.summary`
(views.py lines 74-81). -/
structure Co2Summary where
  total_records : Nat
  avg_emissions : Option ℚ
  max_emissions : Option ℚ
  min_emissions : Option ℚ
  latest_year : Option Int
  earliest_year : Option Int
deriving DecidableEq, Repr

/-- `Co2EmissionsViewSet.summary` over the filtered queryset:
`Count('id')` counts the rows (id is never NULL), the emissions
aggregates skip NULL measures, the year aggregates range over the
non-nullable year column. -/
def co2Summary (rows : List DbRow) : Co2Summary :=
  { total_records := rows.length
    avg_emissions := listAvg (rows.filterMap (·.annual_co2_emissions))
    max_emissions := listMaxOpt (rows.filterMap (·.annual_co2_emissions))
    min_emissions := listMinOpt (rows.filterMap (·.annual_co2_emissions))
    latest_year := listMaxOpt (rows.map (·.year))
    earliest_year := listMinOpt (rows.map (·.year)) }

/-! ### Helper lemmas -/

theorem mem_replaceChar (p : Char) (rep : List Char) (c : Char) :
    ∀ l : List Char, c ∈ replaceChar p rep l → c ∈ rep ∨ c ∈ l := by
  intro l
  induction l with
  | nil => simp [replaceChar]
  | cons x xs ih =>
    simp only [replaceChar]
    split
    · intro h
      rcases List.mem_append.mp h with h | h
      · exact Or.inl h
      · rcases ih h with h | h
        · exact Or.inl h
        · exact Or.inr (List.mem_cons_of_mem _ h)
    · intro h
      rcases List.mem_cons.mp h with h | h
      · exact Or.inr (h ▸ List.mem_cons_self _ _)
      · rcases ih h with h | h
        · exact Or.inl h
        · exact Or.inr (List.mem_cons_of_mem _ h)

theorem not_mem_replaceChar_self (p : Char) (rep : List Char) (hp : p ∉ rep) :
    ∀ l : List Char, p ∉ replaceChar p rep l := by
  intro l
  induction l with
  | nil => simp [replaceChar]
  | cons x xs ih =>
    simp only [replaceChar]
    split
    · intro h
      rcases List.mem_append.mp h with h | h
      · exact hp h
      · exact ih h
    · next hx =>
      intro h
      rcases List.mem_cons.mp h with h | h
      · exact hx (by simp [h])
      · exact ih h

theorem mem_replaceSpDashSp (c : Char) :
    ∀ l : List Char, c ∈ replaceSpDashSp l → c = '_' ∨ c ∈ l := by
  intro l
  induction l using replaceSpDashSp.induct with
  | case1 => simp [replaceSpDashSp]
  | case2 x => simp [replaceSpDashSp]; tauto
  | case3 x d => simp [replaceSpDashSp]; tauto
  | case4 x d e rest hcond ih =>
    rw [replaceSpDashSp, if_pos hcond]
    intro h
    rcases List.mem_cons.mp h with h | h
    · exact Or.inl h
    · rcases ih h with h | h
      · exact Or.inl h
      · exact Or.inr (List.mem_cons_of_mem _ (List.mem_cons_of_mem _ (List.mem_cons_of_mem _ h)))
  | case5 x d e rest hcond ih =>
    rw [replaceSpDashSp, if_neg hcond]
    intro h
    rcases List.mem_cons.mp h with h | h
    · exact Or.inr (h ▸ List.mem_cons_self _ _)
    · rcases ih h with h | h
      · exact Or.inl h
      · exact Or.inr (List.mem_cons_of_mem _ h)

theorem mem_collapseUnd (c : Char) :
    ∀ l : List Char, c ∈ collapseUnd l → c ∈ l := by
  intro l
  induction l using collapseUnd.induct with
  | case1 => simp [collapseUnd]
  | case2 x => simp [collapseUnd]
  | case3 x d rest hcond ih =>
    rw [collapseUnd, if_pos hcond]
    intro h
    rcases List.mem_cons.mp h with h | h
    · have hx : x = '_' := by
        have h2 := hcond
        simp only [Bool.and_eq_true, beq_iff_eq] at h2
        exact h2.1
      subst h
      rw [hx]
      exact List.mem_cons_self _ _
    · exact List.mem_cons_of_mem _ (List.mem_cons_of_mem _ (ih h))
  | case4 x d rest hcond ih =>
    rw [collapseUnd, if_neg hcond]
    intro h
    rcases List.mem_cons.mp h with h | h
    · exact h ▸ List.mem_cons_self _ _
    · exact List.mem_cons_of_mem _ (ih h)

theorem mem_stripUnd (c : Char) (l : List Char) (h : c ∈ stripUnd l) : c ∈ l := by
  unfold stripUnd at h
  rw [List.mem_reverse] at h
  have h2 : c ∈ (l.dropWhile (· == '_')).reverse := (List.dropWhile_sublist _).subset h
  rw [List.mem_reverse] at h2
  exact (List.dropWhile_sublist _).subset h2

theorem head?_dropWhile_ne {α : Type} (p : α → Bool) :
    ∀ l : List α, ∀ c, (l.dropWhile p).head? = some c → p c = false := by
  intro l
  induction l with
  | nil => intro c h; simp [List.dropWhile] at h
  | cons x xs ih =>
    intro c
    simp only [List.dropWhile]
    split
    · exact ih c
    · next hx =>
      intro h
      simp only [List.head?_cons, Option.some.injEq] at h
      subst h
      exact Bool.not_eq_true _ ▸ hx

theorem getLast?_dropWhile_of_ne_nil {α : Type} (p : α → Bool) (l : List α)
    (h : l.dropWhile p ≠ []) : (l.dropWhile p).getLast? = l.getLast? := by
  conv_rhs => rw [← List.takeWhile_append_dropWhile p l]
  exact (List.getLast?_append_of_ne_nil _ h).symm

theorem entityType_eq_aggregate_iff (e : String) :
    entityType e = "aggregate" ↔ ∃ a ∈ AGGREGATES, strHasSub e a = true := by
  unfold entityType
  split
  · next h =>
    exact iff_of_true rfl (List.any_eq_true.mp h)
  · next h =>
    exact iff_of_false (by decide) (fun hex => h (List.any_eq_true.mpr hex))

theorem entityType_cases (e : String) :
    entityType e = "aggregate" ∨ entityType e = "country" := by
  unfold entityType
  split
  · exact Or.inl rfl
  · exact Or.inr rfl

theorem mem_of_mem_dedupAux {α : Type} [DecidableEq α] :
    ∀ (l seen : List α) (x : α), x ∈ dedupAux seen l → x ∈ l := by
  intro l
  induction l with
  | nil => intro seen x h; simp [dedupAux] at h
  | cons a as ih =>
    intro seen x h
    simp only [dedupAux] at h
    split at h
    · exact List.mem_cons_of_mem _ (ih seen x h)
    · rcases List.mem_cons.mp h with h | h
      · exact h ▸ List.mem_cons_self _ _
      · exact List.mem_cons_of_mem _ (ih _ x h)

theorem not_mem_seen_of_mem_dedupAux {α : Type} [DecidableEq α] :
    ∀ (l seen : List α) (x : α), x ∈ dedupAux seen l → x ∉ seen := by
  intro l
  induction l with
  | nil => intro seen x h; simp [dedupAux] at h
  | cons a as ih =>
    intro seen x h
    simp only [dedupAux] at h
    split at h
    · exact ih seen x h
    · next hna =>
      rcases List.mem_cons.mp h with h | h
      · exact h ▸ hna
      · intro hx
        exact ih _ x h (List.mem_cons_of_mem _ hx)

theorem nodup_dedupAux {α : Type} [DecidableEq α] :
    ∀ (l seen : List α), (dedupAux seen l).Nodup := by
  intro l
  induction l with
  | nil => intro seen; simp [dedupAux]
  | cons a as ih =>
    intro seen
    simp only [dedupAux]
    split
    · exact ih seen
    · refine List.nodup_cons.mpr ⟨?_, ih _⟩
      intro ha
      exact not_mem_seen_of_mem_dedupAux _ _ _ ha (List.mem_cons_self _ _)

theorem nodup_dedupKeepFirst {α : Type} [DecidableEq α] (l : List α) :
    (dedupKeepFirst l).Nodup :=
  nodup_dedupAux l []

theorem mem_of_mem_dedupKeepFirst {α : Type} [DecidableEq α] (l : List α) (x : α)
    (h : x ∈ dedupKeepFirst l) : x ∈ l :=
  mem_of_mem_dedupAux l [] x h

theorem nodup_filterMap_on {α β : Type} (f : α → Option β) :
    ∀ l : List α, l.Nodup →
      (∀ a ∈ l, ∀ a' ∈ l, ∀ b, f a = some b → f a' = some b → a = a') →
      (l.filterMap f).Nodup := by
  intro l
  induction l with
  | nil => intro _ _; simp
  | cons x xs ih =>
    intro hnd hinj
    rw [List.filterMap_cons]
    rcases hnd' : f x with _ | b
    · exact ih (List.nodup_cons.mp hnd).2
        (fun a ha a' ha' b hb hb' =>
          hinj a (List.mem_cons_of_mem _ ha) a' (List.mem_cons_of_mem _ ha') b hb hb')
    · refine List.nodup_cons.mpr ⟨?_, ih (List.nodup_cons.mp hnd).2
        (fun a ha a' ha' b hb hb' =>
          hinj a (List.mem_cons_of_mem _ ha) a' (List.mem_cons_of_mem _ ha') b hb hb')⟩
      intro hb
      rcases List.mem_filterMap.mp hb with ⟨a, ha, hfa⟩
      have : a = x := hinj a (List.mem_cons_of_mem _ ha) x (List.mem_cons_self _ _) b hfa hnd'
      subst this
      exact (List.nodup_cons.mp hnd).1 ha

theorem addMeta_injective (source : String) (today : Nat) :
    Function.Injective (addMeta source today) := by
  intro a b h
  cases a
  cases b
  simp only [addMeta, CleanRow.mk.injEq] at h
  simp only [NumRow.mk.injEq]
  exact ⟨h.1, h.2.1, h.2.2.1, h.2.2.2.1⟩

theorem mem_ite_filter (b : Bool) (p : DbRow → Bool) (l : List DbRow) (r : DbRow) :
    r ∈ (if b = true then l.filter p else l) ↔ r ∈ l ∧ (b = true → p r = true) := by
  cases b <;> simp [List.mem_filter]

/-- Projection of a cleaned row to its non-provenance data (the
provenance columns `data_source`, `data_quality_flag`, `last_updated`
are excluded; `entity_type` is derived from `entity` and kept). -/
def coreOf (r : CleanRow) : String × Option String × Int × Option ℚ × String :=
  (r.entity, r.code, r.year, r.value, r.entity_type)

/-! ### Claim theorems -/

/-- C1: for every row output by the clean/transform stage, its
`entity_type` is `"aggregate"` iff its entity string contains one of
the seven fixed aggregate labels as a substring, is `"country"`
otherwise, and is a pure function of the entity string alone. -/
theorem c1_entity_type_classification (source : String) (today : Nat) (rows : List RawRow)
    (r : CleanRow) (hr : r ∈ cleanTransform source today rows) :
    (r.entity_type = "aggregate" ↔ ∃ a ∈ AGGREGATES, strHasSub r.entity a = true) ∧
    (r.entity_type ≠ "aggregate" → r.entity_type = "country") ∧
    r.entity_type = entityType r.entity := by
  rcases List.mem_map.mp hr with ⟨n, hn, rfl⟩
  have he : (addMeta source today n).entity_type = entityType n.entity := rfl
  have hent : (addMeta source today n).entity = n.entity := rfl
  rw [he, hent]
  refine ⟨entityType_eq_aggregate_iff n.entity, ?_, rfl⟩
  intro hne
  rcases entityType_cases n.entity with h | h
  · exact absurd h hne
  · exact h

/-- Witness for C1 on a one-row dataset with entity `"World"`. -/
theorem c1_entity_type_classification_witness :
    (addMeta "co2_emissions" 0 ⟨"World", some "OWID_WRL", 2020, some 1⟩).entity_type
      = "aggregate" :=
  (c1_entity_type_classification "co2_emissions" 0
    [⟨"World", "OWID_WRL", "2020", some 1⟩] _ (by decide)).1.mpr ⟨"World", by decide⟩

/-- C3: every row output by the clean/transform stage has its year in
`[1750, 2025]`; conversely every deduplicated row whose coerced year is
in range contributes an output row, and a row whose year cell is
non-coercible or whose coerced year is out of range is discarded by the
year-filter step. -/
theorem c3_year_range (source : String) (today : Nat) (rows : List RawRow) :
    (∀ r ∈ cleanTransform source today rows, 1750 ≤ r.year ∧ r.year ≤ 2025) ∧
    (∀ m ∈ dedupKeepFirst (rows.map replaceEmptyCode), ∀ y : Int,
      coerceYear m.year = some y → 1750 ≤ y → y ≤ 2025 →
        addMeta source today ⟨m.entity, m.code, y, m.value⟩ ∈ cleanTransform source today rows) ∧
    (∀ m : MidRow,
      (coerceYear m.year = none ∨ ∃ y, coerceYear m.year = some y ∧ (y < 1750 ∨ 2025 < y)) →
        coerceFilterYear m = none) := by
  refine ⟨?_, ?_, ?_⟩
  · intro r hr
    rcases List.mem_map.mp hr with ⟨n, hn, rfl⟩
    rcases List.mem_filterMap.mp hn with ⟨m, _, hf⟩
    have hyr : (addMeta source today n).year = n.year := rfl
    rw [hyr]
    unfold coerceFilterYear at hf
    rcases hcy : coerceYear m.year with _ | y
    · rw [hcy, Option.none_bind] at hf; exact Option.noConfusion hf
    · rw [hcy, Option.some_bind] at hf
      by_cases hcond : (decide (1750 ≤ y) && decide (y ≤ 2025)) = true
      · rw [if_pos hcond] at hf
        cases hf
        simpa using hcond
      · rw [if_neg hcond] at hf
        exact Option.noConfusion hf
  · intro m hm y hcy h1 h2
    refine List.mem_map.mpr ⟨⟨m.entity, m.code, y, m.value⟩, ?_, rfl⟩
    refine List.mem_filterMap.mpr ⟨m, hm, ?_⟩
    unfold coerceFilterYear
    rw [hcy, Option.some_bind]
    simp [h1, h2]
  · intro m hm
    rcases hm with h | ⟨y, hy, hout⟩
    · unfold coerceFilterYear
      rw [h, Option.none_bind]
    · have hcond : ¬(decide (1750 ≤ y) && decide (y ≤ 2025)) = true := by
        simp only [Bool.and_eq_true, decide_eq_true_eq]
        omega
      unfold coerceFilterYear
      rw [hy, Option.some_bind, if_neg hcond]

/-- Witness for C3 on a one-row dataset with year 2020. -/
theorem c3_year_range_witness :
    1750 ≤ (addMeta "co2_emissions" 0 ⟨"France", some "FRA", 2020, some 1⟩).year ∧
    (addMeta "co2_emissions" 0 ⟨"France", some "FRA", 2020, some 1⟩).year ≤ 2025 :=
  (c3_year_range "co2_emissions" 0 [⟨"France", "FRA", "2020", some 1⟩]).1 _ (by decide)

/-- C4 counterexample: duplicates are removed BEFORE year coercion, so
two raw rows that differ only in the textual representation of the
same year (`"2020"` vs `" 2020"`) both survive deduplication and
produce two identical output rows. -/
theorem c4_counterexample :
    ¬ (cleanTransform "co2_emissions" 0
        [⟨"France", "FRA", "2020", some 1⟩, ⟨"France", "FRA", " 2020", some 1⟩]).Nodup ∧
    (cleanTransform "co2_emissions" 0
        [⟨"France", "FRA", "2020", some 1⟩, ⟨"France", "FRA", " 2020", some 1⟩]).length = 2 :=
  ⟨by decide, by decide⟩

/-- C4 amended: if year coercion is injective across the input's year
cells (in particular whenever year cells are canonical numerals), no
two rows of the output frame are identical across all columns — the
appended provenance columns and entity_type, being constants or a
function of the entity, preserve distinctness. -/
theorem c4_nodup_of_injective_years (source : String) (today : Nat) (rows : List RawRow)
    (hinj : ∀ r1 ∈ rows, ∀ r2 ∈ rows,
      coerceYear r1.year = coerceYear r2.year → r1.year = r2.year) :
    (cleanTransform source today rows).Nodup := by
  unfold cleanTransform
  apply List.Nodup.map (addMeta_injective source today)
  apply nodup_filterMap_on _ _ (nodup_dedupKeepFirst _)
  intro a ha a' ha' b hb hb'
  rcases List.mem_map.mp (mem_of_mem_dedupKeepFirst _ _ ha) with ⟨ra, hra, rfl⟩
  rcases List.mem_map.mp (mem_of_mem_dedupKeepFirst _ _ ha') with ⟨ra', hra', rfl⟩
  unfold coerceFilterYear at hb hb'
  rcases hcy : coerceYear (replaceEmptyCode ra).year with _ | y
  · rw [hcy, Option.none_bind] at hb; exact Option.noConfusion hb
  rcases hcy' : coerceYear (replaceEmptyCode ra').year with _ | y'
  · rw [hcy', Option.none_bind] at hb'; exact Option.noConfusion hb'
  rw [hcy, Option.some_bind] at hb
  rw [hcy', Option.some_bind] at hb'
  by_cases hcond : (decide (1750 ≤ y) && decide (y ≤ 2025)) = true
  · rw [if_pos hcond] at hb
    by_cases hcond' : (decide (1750 ≤ y') && decide (y' ≤ 2025)) = true
    · rw [if_pos hcond'] at hb'
      have hb2 := (Option.some.inj hb).trans (Option.some.inj hb').symm
      simp only [NumRow.mk.injEq] at hb2
      obtain ⟨h1, h2, h3, h4⟩ := hb2
      have hyear : ra.year = ra'.year := by
        refine hinj ra hra ra' hra' ?_
        have e1 : coerceYear ra.year = some y := hcy
        have e2 : coerceYear ra'.year = some y' := hcy'
        rw [e1, e2, h3]
      unfold replaceEmptyCode
      simp only [MidRow.mk.injEq]
      exact ⟨h1, h2, hyear, h4⟩
    · rw [if_neg hcond'] at hb'; exact Option.noConfusion hb'
  · rw [if_neg hcond] at hb
    exact Option.noConfusion hb

/-- Witness for C4 amended on two rows with distinct canonical years. -/
theorem c4_nodup_of_injective_years_witness :
    (cleanTransform "co2_emissions" 0
      [⟨"France", "FRA", "2020", some 1⟩, ⟨"France", "FRA", "2021", some 1⟩]).Nodup :=
  c4_nodup_of_injective_years _ _ _ (by decide)

/-- C7: the clean/transform stage is deterministic in the data it
keeps: two runs on identical input frames (differing only in the
run-date stamped into `last_updated`) keep the same number of rows and
the same values in all non-provenance columns, hence identical
count/avg/min/max statistics over the measure column. -/
theorem c7_deterministic (source : String) (t1 t2 : Nat) (rows : List RawRow) :
    (cleanTransform source t1 rows).length = (cleanTransform source t2 rows).length ∧
    (cleanTransform source t1 rows).map coreOf = (cleanTransform source t2 rows).map coreOf ∧
    (cleanTransform source t1 rows).filterMap (fun r => r.value)
      = (cleanTransform source t2 rows).filterMap (fun r => r.value) ∧
    listAvg ((cleanTransform source t1 rows).filterMap (fun r => r.value))
      = listAvg ((cleanTransform source t2 rows).filterMap (fun r => r.value)) ∧
    listMaxOpt ((cleanTransform source t1 rows).filterMap (fun r => r.value))
      = listMaxOpt ((cleanTransform source t2 rows).filterMap (fun r => r.value)) ∧
    listMinOpt ((cleanTransform source t1 rows).filterMap (fun r => r.value))
      = listMinOpt ((cleanTransform source t2 rows).filterMap (fun r => r.value)) := by
  have hmap : ∀ t : Nat, (cleanTransform source t rows).map coreOf
      = ((dedupKeepFirst (rows.map replaceEmptyCode)).filterMap coerceFilterYear).map
          (fun r => (r.entity, r.code, r.year, r.value, entityType r.entity)) := by
    intro t
    unfold cleanTransform
    rw [List.map_map]
    rfl
  have hval : ∀ t : Nat, (cleanTransform source t rows).filterMap (fun r => r.value)
      = ((dedupKeepFirst (rows.map replaceEmptyCode)).filterMap coerceFilterYear).filterMap
          (fun r => r.value) := by
    intro t
    unfold cleanTransform
    rw [List.filterMap_map]
    rfl
  have hlen : ∀ t : Nat, (cleanTransform source t rows).length
      = ((dedupKeepFirst (rows.map replaceEmptyCode)).filterMap coerceFilterYear).length := by
    intro t
    unfold cleanTransform
    rw [List.length_map]
  refine ⟨by rw [hlen t1, hlen t2], by rw [hmap t1, hmap t2], by rw [hval t1, hval t2], ?_, ?_, ?_⟩
  all_goals rw [hval t1, hval t2]

/-- C8: the collection filters are conjunctive — a row is returned iff
it is stored and satisfies every supplied (truthy) filter; in
particular with `year=2020` and `entity=France` the returned set is
exactly the stored rows with year 2020 whose entity contains "France"
case-insensitively. -/
theorem c8_filters_conjunctive :
    (∀ (q : Query) (rows : List DbRow) (r : DbRow),
      r ∈ applyFilters q rows ↔
        r ∈ rows ∧
        (truthy q.entity = true → icontains r.entity (q.entity.getD "") = true) ∧
        (truthy q.code = true → (r.code == some (q.code.getD "")) = true) ∧
        (truthy q.year = true → intEqParam r.year (q.year.getD "") = true) ∧
        (truthy q.entity_type = true → (r.entity_type == q.entity_type.getD "") = true) ∧
        (truthy q.year_min = true → intGeParam r.year (q.year_min.getD "") = true) ∧
        (truthy q.year_max = true → intLeParam r.year (q.year_max.getD "") = true)) ∧
    (∀ (rows : List DbRow) (r : DbRow),
      r ∈ applyFilters ⟨some "France", none, some "2020", none, none, none⟩ rows ↔
        r ∈ rows ∧ r.year = 2020 ∧ icontains r.entity "France" = true) := by
  have key : ∀ (q : Query) (rows : List DbRow) (r : DbRow),
      r ∈ applyFilters q rows ↔
        r ∈ rows ∧
        (truthy q.entity = true → icontains r.entity (q.entity.getD "") = true) ∧
        (truthy q.code = true → (r.code == some (q.code.getD "")) = true) ∧
        (truthy q.year = true → intEqParam r.year (q.year.getD "") = true) ∧
        (truthy q.entity_type = true → (r.entity_type == q.entity_type.getD "") = true) ∧
        (truthy q.year_min = true → intGeParam r.year (q.year_min.getD "") = true) ∧
        (truthy q.year_max = true → intLeParam r.year (q.year_max.getD "") = true) := by
    intro q rows r
    simp only [applyFilters, mem_ite_filter]
    tauto
  refine ⟨key, ?_⟩
  intro rows r
  rw [key]
  have h2020 : intEqParam r.year "2020" = true ↔ r.year = 2020 := by
    unfold intEqParam
    rw [show parseIntStr "2020" = some 2020 from rfl]
    exact beq_iff_eq
  constructor
  · rintro ⟨hrow, he, _, hy, _, _, _⟩
    exact ⟨hrow, h2020.mp (hy rfl), he rfl⟩
  · rintro ⟨hrow, hy, he⟩
    refine ⟨hrow, fun _ => he, ?_, fun _ => h2020.mpr hy, ?_, ?_, ?_⟩
    all_goals intro hT; exact absurd hT (by decide)

/-- Witness for C8: on a three-row table, the France/2020 row passes
the combined `entity=France`, `year=2020` filter. -/
theorem c8_filters_conjunctive_witness :
    (⟨7, "France", some "FRA", 2020, some 3, "co2_emissions", "clean", 0, "country"⟩ : DbRow) ∈
      applyFilters ⟨some "France", none, some "2020", none, none, none⟩
        [⟨7, "France", some "FRA", 2020, some 3, "co2_emissions", "clean", 0, "country"⟩,
         ⟨8, "Germany", some "DEU", 2020, some 2, "co2_emissions", "clean", 0, "country"⟩,
         ⟨9, "France", some "FRA", 2019, some 1, "co2_emissions", "clean", 0, "country"⟩] :=
  (c8_filters_conjunctive.2 _ _).mpr ⟨by decide, rfl, by decide⟩

/-- C2: every aggregate field name used by the electricity-production
summary endpoint and by the energy-prod-cons summary endpoint is absent
from the field names declared on the corresponding Django model, so
these aggregates cannot be evaluated against the declared columns. -/
theorem c2_summary_fields_not_declared :
    (∀ f ∈ electricitySummaryAggFields, f ∉ electricityModelFields) ∧
    (∀ f ∈ energyProdConsSummaryAggFields, f ∉ energyProdConsModelFields) := by
  decide

/-- Witness for C2 at the concrete field name
`electricity_from_fossil_fuels_twh`. -/
theorem c2_summary_fields_not_declared_witness :
    "electricity_from_fossil_fuels_twh" ∉ electricityModelFields :=
  c2_summary_fields_not_declared.1 "electricity_from_fossil_fuels_twh" (by decide)

/-- C5: the surrogate keys assigned by the load stage are exactly the
contiguous sequence 1, 2, ..., n over the n cleaned rows — the id list
equals `[1, ..., n]`, the ids are pairwise distinct, and the rows are
kept unchanged and in order; the sequence starts from 1 on every call,
i.e. on every run. -/
theorem c5_assignIds_contiguous (rows : List CleanRow) :
    (assignIds rows).map Prod.fst = (List.range rows.length).map (· + 1) ∧
    ((assignIds rows).map Prod.fst).Nodup ∧
    (assignIds rows).map Prod.snd = rows := by
  refine ⟨List.map_fst_zip _ _ (by simp), ?_, List.map_snd_zip _ _ (by simp)⟩
  rw [show (assignIds rows).map Prod.fst = (List.range rows.length).map (· + 1) from
    List.map_fst_zip _ _ (by simp)]
  exact List.Nodup.map (fun a b h => by omega) (List.nodup_range _)

/-- C6 counterexample: the column normalization does NOT collapse every
run of whitespace into a single underscore (a run of three spaces
leaves a double underscore), and decorations other than parentheses
(here `$`) are not stripped. -/
theorem c6_counterexample :
    normalizeCol "a   b" = "a__b" ∧ normalizeCol "a   b" ≠ "a_b" ∧
    normalizeCol "price $" = "price_$" := by
  decide

/-- C6 amended: the column normalization is a pure string rewrite that
lower-cases and eliminates every space, hyphen and parenthesis from the
name and leaves no leading or trailing underscore; but the
double-underscore collapse is a single left-to-right pass, so runs of
three or more spaces/hyphens can leave repeated underscores, and
characters other than parentheses (e.g. currency signs) are kept. -/
theorem c6_normalizeCol_amended (s : String) :
    (' ' ∉ (normalizeCol s).toList) ∧ ('-' ∉ (normalizeCol s).toList) ∧
    ('(' ∉ (normalizeCol s).toList) ∧ (')' ∉ (normalizeCol s).toList) ∧
    (∀ c, (normalizeCol s).toList.head? = some c → c ≠ '_') ∧
    (∀ c, (normalizeCol s).toList.getLast? = some c → c ≠ '_') := by
  have hout : (normalizeCol s).toList =
      stripUnd (collapseUnd (replaceChar '-' ['_'] (replaceChar ' ' ['_']
        (replaceSpDashSp (replaceChar ')' [] (replaceChar '(' []
          (replaceChar '₂' ['2'] (s.toList.map Char.toLower)))))))) := rfl
  rw [hout]
  set l2 := replaceChar '(' [] (replaceChar '₂' ['2'] (s.toList.map Char.toLower)) with hl2
  set l3 := replaceChar ')' [] l2 with hl3
  set l4 := replaceSpDashSp l3 with hl4
  set l5 := replaceChar ' ' ['_'] l4 with hl5
  set l6 := replaceChar '-' ['_'] l5 with hl6
  set l7 := collapseUnd l6 with hl7
  refine ⟨?_, ?_, ?_, ?_, ?_, ?_⟩
  · intro h
    have h7 := mem_collapseUnd _ _ (mem_stripUnd _ _ h)
    rcases mem_replaceChar _ _ _ _ h7 with h | h
    · simp at h
    · exact not_mem_replaceChar_self ' ' ['_'] (by simp) _ h
  · intro h
    have h7 := mem_collapseUnd _ _ (mem_stripUnd _ _ h)
    exact not_mem_replaceChar_self '-' ['_'] (by simp) _ h7
  · intro h
    have h7 := mem_collapseUnd _ _ (mem_stripUnd _ _ h)
    rcases mem_replaceChar _ _ _ _ h7 with h | h
    · simp at h
    rcases mem_replaceChar _ _ _ _ h with h | h
    · simp at h
    rcases mem_replaceSpDashSp _ _ h with h | h
    · simp at h
    rcases mem_replaceChar _ _ _ _ h with h | h
    · simp at h
    · exact not_mem_replaceChar_self '(' [] (by simp) _ h
  · intro h
    have h7 := mem_collapseUnd _ _ (mem_stripUnd _ _ h)
    rcases mem_replaceChar _ _ _ _ h7 with h | h
    · simp at h
    rcases mem_replaceChar _ _ _ _ h with h | h
    · simp at h
    rcases mem_replaceSpDashSp _ _ h with h | h
    · simp at h
    · exact not_mem_replaceChar_self ')' [] (by simp) _ h
  · intro c hc
    unfold stripUnd at hc
    rw [List.head?_reverse] at hc
    intro hcu
    subst hcu
    by_cases hnil : ((l7.dropWhile (· == '_')).reverse.dropWhile (· == '_')) = []
    · rw [hnil] at hc; simp at hc
    · rw [getLast?_dropWhile_of_ne_nil _ _ hnil, List.getLast?_reverse] at hc
      have := head?_dropWhile_ne (· == '_') l7 _ hc
      simp at this
  · intro c hc
    unfold stripUnd at hc
    rw [List.getLast?_reverse] at hc
    intro hcu
    subst hcu
    have := head?_dropWhile_ne (· == '_') _ _ hc
    simp at this

/-- Witness for C6 amended at the concrete column name
`"CO₂ emissions (tonnes) - total"`. -/
theorem c6_normalizeCol_amended_witness :
    ' ' ∉ (normalizeCol "CO₂ emissions (tonnes) - total").toList ∧
    normalizeCol "CO₂ emissions (tonnes) - total" = "co2_emissions_tonnes_total" :=
  ⟨(c6_normalizeCol_amended "CO₂ emissions (tonnes) - total").1, by decide⟩

/-- C9: the co2-emissions summary on an empty filtered set returns the
successful value with `total_records = 0` and `None` for the five
aggregates (the model function is total, so no error is possible). -/
theorem c9_empty_summary (q : Query) (rows : List DbRow)
    (h : applyFilters q rows = []) :
    co2Summary (applyFilters q rows) =
      { total_records := 0, avg_emissions := none, max_emissions := none,
        min_emissions := none, latest_year := none, earliest_year := none } := by
  rw [h]
  rfl

/-- Witness for C9: a one-row table filtered by an entity substring
matching nothing yields the zero/None summary. -/
theorem c9_empty_summary_witness :
    co2Summary (applyFilters ⟨some "zz", none, none, none, none, none⟩
      [⟨1, "World", some "OWID_WRL", 2020, some 1, "co2_emissions", "clean", 0, "aggregate"⟩]) =
      { total_records := 0, avg_emissions := none, max_emissions := none,
        min_emissions := none, latest_year := none, earliest_year := none } :=
  c9_empty_summary _ _ (by decide)

/-- C10: supplying any of the six query parameters as the empty string
is the same as omitting it — the filter is gated on Python truthiness,
and the empty string is falsy. -/
theorem c10_empty_param_ignored (q : Query) (rows : List DbRow) :
    applyFilters { q with entity := some "" } rows = applyFilters { q with entity := none } rows ∧
    applyFilters { q with code := some "" } rows = applyFilters { q with code := none } rows ∧
    applyFilters { q with year := some "" } rows = applyFilters { q with year := none } rows ∧
    applyFilters { q with entity_type := some "" } rows
      = applyFilters { q with entity_type := none } rows ∧
    applyFilters { q with year_min := some "" } rows
      = applyFilters { q with year_min := none } rows ∧
    applyFilters { q with year_max := some "" } rows
      = applyFilters { q with year_max := none } rows :=
  ⟨rfl, rfl, rfl, rfl, rfl, rfl⟩

end BIProject
